import Mathlib

/-!
A shallow embedding of `src/net-test.py` (ANT, version 2.6.4): the test-data
validator, the host-registry validation and lookup, the probe-command builder
with its remote-shell wrap, the executor boundary, the two result mappers
(ping text and iperf JSON) and the main aggregation loop, together with
theorems settling the specification claims about them.

Conventions used throughout:
* Python exceptions are modelled by the `Except PyErr` monad (`Py` below);
  an uncaught exception is an `Except.error` value propagating outwards.
* A Python dict value of `None` and an absent dict key are both modelled as
  `Option.none`; both mean "field not populated" in the result record.
* `subprocess.check_output(cmd, shell=True, stderr=STDOUT)` is modelled by an
  oracle `Env.exec` mapping the command string to either its decoded combined
  output (exit code 0) or a `CalledProcessError` (non-zero exit code).
* The only arithmetic in scope is `round(((tx - rx) / tx) * 100, 4)` on small
  packet counters; it is modelled exactly over `ℚ` with Python 3 rounding
  (ties to even).
* `json.loads` (an external library collaborator of the script) is modelled
  by a fuel-bounded recursive descent over the input characters.
-/

/-- The Python exceptions the script can raise along the modelled paths. -/
inductive PyErr where
  | keyError (k : String)
  | indexError
  | typeError
  | valueError (msg : String)
  | zeroDivisionError
  | attributeError
  | noSectionError (s : String)
  | noOptionError (s o : String)
  | jsonDecodeError

/-- Computations that may raise a Python exception. -/
abbrev Py (α : Type) := Except PyErr α

/-- Python dict access `d[k]` on a field that may be absent: `KeyError`. -/
def pyKey {α : Type} (o : Option α) (k : String) : Py α :=
  match o with
  | some v => Except.ok v
  | none => Except.error (PyErr.keyError k)

/-- Python list indexing `xs[i]` with a non-negative index: `IndexError`. -/
def pyIndex {α : Type} (xs : List α) (i : Nat) : Py α :=
  match xs.get? i with
  | some v => Except.ok v
  | none => Except.error PyErr.indexError

/-- Occurrence test for a non-empty pattern in a character list. -/
def pyInAux (pat : List Char) : List Char → Bool
  | [] => pat.isEmpty
  | c :: cs => pat.isPrefixOf (c :: cs) || pyInAux pat cs

/-- Python's substring test `pat in s` for a non-empty pattern (used for
`'min/avg/max' in line` and `'packet loss' in line`). -/
def pyIn (pat s : String) : Bool := pyInAux pat.data s.data

/-- Python's `s.split(sep)` over characters: cut at each leftmost,
non-overlapping occurrence of the non-empty separator.  The fuel is the
input length; at least one character is consumed per step, so the zero-fuel
arm (which closes the current piece) is reached only with an empty rest. -/
def pySplitAux (sep : List Char) : Nat → List Char → List Char → List (List Char)
  | 0, rest, acc => [acc.reverse ++ rest]
  | fuel + 1, cs, acc =>
    match cs with
    | [] => [acc.reverse]
    | c :: cs' =>
      if sep.isPrefixOf (c :: cs') then
        acc.reverse :: pySplitAux sep fuel ((c :: cs').drop sep.length) []
      else pySplitAux sep fuel cs' (c :: acc)

/-- Python's `s.split(sep)` for a non-empty separator: keeps empty pieces,
result has one more piece than there are separator occurrences. -/
def pySplit (s sep : String) : List String :=
  (pySplitAux sep.data s.data.length s.data []).map String.mk

/-- Python's `s.replace(pat, rep)` over characters: replace every leftmost,
non-overlapping occurrence.  Fuel as in `pySplitAux`. -/
def pyReplaceAux (pat rep : List Char) : Nat → List Char → List Char
  | 0, cs => cs
  | fuel + 1, cs =>
    match cs with
    | [] => []
    | c :: cs' =>
      if pat.isPrefixOf (c :: cs') then
        rep ++ pyReplaceAux pat rep fuel ((c :: cs').drop pat.length)
      else c :: pyReplaceAux pat rep fuel cs'

/-- Python's `s.replace(pat, rep)` for a non-empty pattern. -/
def pyReplace (s pat rep : String) : String :=
  String.mk (pyReplaceAux pat.data rep.data s.data.length s.data)

/-- Python's `s.strip()` (ASCII whitespace suffices for the outputs in
scope). -/
def pyStrip (s : String) : String :=
  String.mk (((s.data.dropWhile Char.isWhitespace).reverse.dropWhile Char.isWhitespace).reverse)

/-- Python's `s.lower()` (ASCII case suffices for hostnames in scope). -/
def pyLower (s : String) : String := String.mk (s.data.map Char.toLower)

/-- Decimal digit accumulation for `int(s)`: every character must be a
digit. -/
def natOfDigitsAux : List Char → Nat → Option Nat
  | [], acc => some acc
  | c :: cs, acc =>
    if c.isDigit then natOfDigitsAux cs (acc * 10 + (c.toNat - 48)) else none

/-- Python's `int(s)` on a decimal string: tolerates surrounding whitespace
and an optional sign, raises `ValueError` on anything else. -/
def pyToInt (s : String) : Py Int :=
  match (pyStrip s).data with
  | [] => Except.error (PyErr.valueError "invalid literal for int")
  | '-' :: ds =>
    if ds.isEmpty then Except.error (PyErr.valueError "invalid literal for int")
    else
      match natOfDigitsAux ds 0 with
      | some n => Except.ok (-(n : Int))
      | none => Except.error (PyErr.valueError "invalid literal for int")
  | '+' :: ds =>
    if ds.isEmpty then Except.error (PyErr.valueError "invalid literal for int")
    else
      match natOfDigitsAux ds 0 with
      | some n => Except.ok (n : Int)
      | none => Except.error (PyErr.valueError "invalid literal for int")
  | ds =>
    match natOfDigitsAux ds 0 with
    | some n => Except.ok (n : Int)
    | none => Except.error (PyErr.valueError "invalid literal for int")

/-- Round a rational to the nearest integer, ties to even (Python 3 `round`). -/
def roundHalfEven (q : ℚ) : ℤ :=
  let n : ℤ := Int.floor q
  let frac : ℚ := q - (n : ℚ)
  if frac < 1/2 then n
  else if 1/2 < frac then n + 1
  else if n % 2 = 0 then n else n + 1

/-- Python's `round(q, 4)` (line 352), modelled exactly over `ℚ`. -/
def pyRound4 (q : ℚ) : ℚ := ((roundHalfEven (q * 10000) : ℤ) : ℚ) / 10000

/-- Decoded JSON documents, as returned by `json.loads`. Numbers are carried
as their lexemes; the script never computes with them, it only copies them
into the result record. -/
inductive Json where
  | null
  | bool (b : Bool)
  | num (lexeme : String)
  | str (s : String)
  | arr (elems : List Json)
  | obj (members : List (String × Json))

/-- Key lookup in a decoded JSON object (Python dict lookup; `json.loads`
deduplicates keys, so first-match lookup is adequate). -/
def jLookup (kvs : List (String × Json)) (k : String) : Option Json :=
  match kvs with
  | [] => none
  | (k', v) :: rest => if k' = k then some v else jLookup rest k

/-- JSON insignificant whitespace. -/
def jWs (c : Char) : Bool := c == ' ' || c == '\n' || c == '\t' || c == '\r'

/-- Drop leading JSON whitespace. -/
def jSkip : List Char → List Char
  | [] => []
  | c :: cs => if jWs c then jSkip cs else c :: cs

/-- Scan the body of a JSON string literal (opening quote already consumed),
decoding the common escapes; returns the decoded characters and the rest. -/
def jStrChars : Nat → List Char → Option (List Char × List Char)
  | 0, _ => none
  | _ + 1, [] => none
  | fuel + 1, c :: cs =>
    if c == '"' then some ([], cs)
    else if c == '\\' then
      match cs with
      | [] => none
      | e :: cs' =>
        let d : Option Char :=
          if e == '"' then some '"'
          else if e == '\\' then some '\\'
          else if e == '/' then some '/'
          else if e == 'n' then some '\n'
          else if e == 't' then some '\t'
          else if e == 'r' then some '\r'
          else if e == 'b' then some (Char.ofNat 8)
          else if e == 'f' then some (Char.ofNat 12)
          else none
        match d with
        | none => none
        | some ch =>
          match jStrChars fuel cs' with
          | none => none
          | some (s, rest) => some (ch :: s, rest)
    else
      match jStrChars fuel cs with
      | none => none
      | some (s, rest) => some (c :: s, rest)

/-- Characters that may occur in a JSON number literal. -/
def jNumChar (c : Char) : Bool :=
  c.isDigit || c == '-' || c == '+' || c == '.' || c == 'e' || c == 'E'

/-- Scan a JSON number literal (greedy span of number characters that starts
with a digit or minus sign and contains at least one digit). -/
def jNum (cs : List Char) : Option (Json × List Char) :=
  let tok := cs.takeWhile jNumChar
  let rest := cs.dropWhile jNumChar
  match tok with
  | [] => none
  | c :: _ =>
    if (c.isDigit || c == '-') && tok.any Char.isDigit then
      some (Json.num (String.mk tok), rest)
    else none

/-- Scan a fixed keyword (`null`, `true`, `false`), first character already
consumed. -/
def jLit (lit : List Char) (v : Json) (cs : List Char) : Option (Json × List Char) :=
  if lit.isPrefixOf cs then some (v, cs.drop lit.length) else none

mutual

/-- Scan one JSON value. -/
def jVal : Nat → List Char → Option (Json × List Char)
  | 0, _ => none
  | fuel + 1, cs =>
    match jSkip cs with
    | [] => none
    | c :: rest =>
      if c == 'n' then jLit ['u', 'l', 'l'] Json.null rest
      else if c == 't' then jLit ['r', 'u', 'e'] (Json.bool true) rest
      else if c == 'f' then jLit ['a', 'l', 's', 'e'] (Json.bool false) rest
      else if c == '"' then
        match jStrChars (fuel + 1) rest with
        | none => none
        | some (s, r) => some (Json.str (String.mk s), r)
      else if c == '[' then
        match jSkip rest with
        | ']' :: r => some (Json.arr [], r)
        | r =>
          match jItems fuel r with
          | none => none
          | some (vs, r') => some (Json.arr vs, r')
      else if c == Char.ofNat 123 then
        match jSkip rest with
        | [] => none
        | d :: r =>
          if d == Char.ofNat 125 then some (Json.obj [], r)
          else
            match jMembers fuel (d :: r) with
            | none => none
            | some (kvs, r') => some (Json.obj kvs, r')
      else jNum (c :: rest)

/-- Scan the non-empty element list of a JSON array, up to and including the
closing bracket. -/
def jItems : Nat → List Char → Option (List Json × List Char)
  | 0, _ => none
  | fuel + 1, cs =>
    match jVal fuel cs with
    | none => none
    | some (v, rest) =>
      match jSkip rest with
      | ',' :: r =>
        match jItems fuel r with
        | none => none
        | some (vs, r') => some (v :: vs, r')
      | ']' :: r => some ([v], r)
      | _ => none

/-- Scan the non-empty member list of a JSON object, up to and including the
closing brace. -/
def jMembers : Nat → List Char → Option (List (String × Json) × List Char)
  | 0, _ => none
  | fuel + 1, cs =>
    match jSkip cs with
    | '"' :: rest =>
      match jStrChars (fuel + 1) rest with
      | none => none
      | some (k, rest') =>
        match jSkip rest' with
        | ':' :: rest'' =>
          match jVal fuel rest'' with
          | none => none
          | some (v, r3) =>
            match jSkip r3 with
            | [] => none
            | d :: r4 =>
              if d == ',' then
                match jMembers fuel r4 with
                | none => none
                | some (kvs, r) => some ((String.mk k, v) :: kvs, r)
              else if d == Char.ofNat 125 then some ([(String.mk k, v)], r4)
              else none
        | _ => none
    | _ => none

end

/-- Python `json.loads` (line 392), an external library collaborator of the
script: decode the whole input as one JSON document, raising
`json.JSONDecodeError` on any parse failure.  The fuel `s.length + 1` bounds
the recursion depth, which consumes at least one input character per level. -/
def json_loads (s : String) : Py Json :=
  match jVal (s.length + 1) s.data with
  | some (v, rest) =>
    if (jSkip rest).isEmpty then Except.ok v else Except.error PyErr.jsonDecodeError
  | none => Except.error PyErr.jsonDecodeError

/-- Python subscript `j[k]` on a decoded JSON value: dict lookup on objects
(`KeyError` when the key is absent), `TypeError` on any non-object. -/
def jsonGetPy (j : Json) (k : String) : Py Json :=
  match j with
  | Json.obj kvs =>
    match jLookup kvs k with
    | some v => Except.ok v
    | none => Except.error (PyErr.keyError k)
  | _ => Except.error PyErr.typeError

/-- Python `"error" in command_result` (line 397) on a decoded JSON value:
key test on objects, element test on arrays, substring test on strings,
`TypeError` on numbers, booleans and `None`. -/
def jsonHasErrorKey (j : Json) : Py Bool :=
  match j with
  | Json.obj kvs => Except.ok (jLookup kvs "error").isSome
  | Json.arr xs =>
    Except.ok (xs.any fun x => match x with | Json.str s => s == "error" | _ => false)
  | Json.str s => Except.ok (pyIn "error" s)
  | _ => Except.error PyErr.typeError

/-- `json.loads` maps JSON `null` to Python `None`; storing `None` in the
results dict is modelled as the absent option, like an absent key. -/
def pyJsonOpt : Json → Option Json
  | Json.null => none
  | j => some j

/-- One row of the input CSV as produced by `read_input_file` (lines 156-200):
empty values are dropped from the dict, so every field is optional.  Values
are the stripped cell strings. -/
structure Test where
  csv_line_num : Option Nat := none
  id_number : Option String := none
  test_type : Option String := none
  source : Option String := none
  destination : Option String := none
  count : Option String := none
  size : Option String := none

/-- The parsed `host_config.ini`: section name to option list. -/
abbrev HostConfig := List (String × List (String × String))

/-- `configparser.ConfigParser.get(section, option)` (line 465):
`NoSectionError` when the section is absent, `NoOptionError` when the option
is absent from the section. -/
def cfgGet (cfg : HostConfig) (sec opt : String) : Py String :=
  match cfg.lookup sec with
  | none => Except.error (PyErr.noSectionError sec)
  | some opts =>
    match opts.lookup opt with
    | none => Except.error (PyErr.noOptionError sec opt)
    | some v => Except.ok v

/-- Mapping-style access `section_proxy[option]` (line 214): `KeyError` when
the option is absent. -/
def cfgSectionIndex (opts : List (String × String)) (opt : String) : Py String :=
  match opts.lookup opt with
  | some v => Except.ok v
  | none => Except.error (PyErr.keyError opt)

/-- One `subprocess.check_output` invocation: decoded combined stdout+stderr
on exit code 0, or a `CalledProcessError` carrying the combined output. -/
inductive ExecOutcome where
  | ok (raw : String)
  | err (output : String)

/-- The ambient run state of the script: the parsed host registry, the ping
interval (a command-line string; the numeric default renders identically into
the command), the local identity computed at lines 592-594 (`my_hostname` and
`my_fqdn` are lowercased there), the timestamp taken at line 499, and the
subprocess oracle (each command in the theorems below is executed once). -/
structure Env where
  host_config : HostConfig
  ping_interval : String
  my_hostname : String
  my_fqdn : String
  my_ip_addr : String
  now : String
  exec : String → ExecOutcome

/-- `TEST_TYPES` (line 33). -/
def TEST_TYPES : List String := ["latency", "throughput", "jitter"]

/-- Python truthiness of an optional CSV string value (`all([...])`,
`not size`): absent and empty are falsy. -/
def truthy : Option String → Bool
  | some s => s != ""
  | none => false

/-- The reports `test_data_validated_ok` can make through `logger.error`. -/
inductive ValErr where
  | missingMandatory (csv_line_num : Option Nat)
  | invalidTestType (csv_line_num : Option Nat)
  | missingSize (csv_line_num : Option Nat)
  | duplicateIds (dups : List String)

/-- The per-row checks of `test_data_validated_ok` (lines 238-261): the first
failing check for one CSV row, if any. -/
def check_item (t : Test) : Option ValErr :=
  if !(truthy t.id_number && truthy t.test_type && truthy t.source && truthy t.destination) then
    some (ValErr.missingMandatory t.csv_line_num)
  else if !(TEST_TYPES.contains (t.test_type.getD "")) then
    some (ValErr.invalidTestType t.csv_line_num)
  else if t.test_type.getD "" == "throughput" && !(truthy t.size) then
    some (ValErr.missingSize t.csv_line_num)
  else none

/-- The row loop of `test_data_validated_ok`: it returns `False` at the first
row that fails a check. -/
def first_item_err : List Test → Option ValErr
  | [] => none
  | t :: ts =>
    match check_item t with
    | some e => some e
    | none => first_item_err ts

/-- Order-preserving removal of duplicates (Python's `set` used only for
membership and emptiness, where order is irrelevant). -/
def dedupAux : List String → List String → List String
  | [], _ => []
  | x :: xs, seen => if seen.contains x then dedupAux xs seen else x :: dedupAux xs (x :: seen)

/-- Order-preserving removal of duplicates. -/
def dedupStr (xs : List String) : List String := dedupAux xs []

/-- `test_data_validated_ok` (lines 227-271): the boolean the Python function
returns, paired with the list of `logger.error` reports it makes before
returning.  The row loop returns `False` at the first failing row, so at most
one row report is made; the duplicate-id scan runs only when every row passed
and reports all duplicate ids in a single entry. -/
def test_data_validated_ok (tests : List Test) : Bool × List ValErr :=
  match first_item_err tests with
  | some e => (false, [e])
  | none =>
    let ids := tests.map fun t => t.id_number.getD ""
    let dups := (dedupStr ids).filter fun i => 1 < ids.count i
    if dups.isEmpty then (true, []) else (false, [ValErr.duplicateIds dups])

/-- The source column of every row (`t['source']`, line 211): `KeyError` when
a row has no source. -/
def sourcesOf : List Test → Py (List String)
  | [] => Except.ok []
  | t :: ts => do
    let s ← pyKey t.source "source"
    let rest ← sourcesOf ts
    Except.ok (s :: rest)

/-- The `hostname` option value of every registry section (line 214):
`KeyError` when a section has no `hostname` option. -/
def hostnamesOf : HostConfig → Py (List String)
  | [] => Except.ok []
  | (_, opts) :: rest => do
    let h ← cfgSectionIndex opts "hostname"
    let hs ← hostnamesOf rest
    Except.ok (h :: hs)

/-- `host_config_validated_ok` (lines 203-224): every distinct `source` in
the batch must appear among the `hostname` option values of the registry
sections (note: the option values, not the section names). -/
def host_config_validated_ok (tests : List Test) (cfg : HostConfig) : Py Bool := do
  let srcs ← sourcesOf tests
  let hosts ← hostnamesOf cfg
  let missing := (dedupStr srcs).filter fun h => !(hosts.contains h)
  Except.ok missing.isEmpty

/-- What a result-mapper call contributes to the results dict: the key set of
the dict returned by `parse_ping_results` or `parse_iperf_results`. -/
inductive ParsedPatch where
  | ping (min_rtt avg_rtt max_rtt stddev_rtt : Option String)
      (packets_txd packets_rxd : Option Int) (packet_loss_percent : Option ℚ)
  | iperfError (e : Json)
  | throughput (seconds bytes bits_per_second : Json)
  | jitter (jitter_ms packets lost_packets : Json)

/-- `parse_ping_results` (lines 298-374).  The match on the filtered list
mirrors the `len == 0` / `len > 1` / `else` cascade; the four-way split
mirrors the tuple unpacking at line 332 (`ValueError` on any other arity);
the local loss computation at line 352 divides by `packets_txd`
(`ZeroDivisionError` when it is zero). -/
def parse_ping_results (t : Test) (raw : String) : Py ParsedPatch := do
  let _id ← pyKey t.id_number "id_number"
  let _src ← pyKey t.source "source"
  let _dst ← pyKey t.destination "destination"
  let rtt_line := (pySplit raw "\n").filter fun line => pyIn "min/avg/max" line
  match rtt_line with
  | [] => Except.ok (ParsedPatch.ping none none none none none none none)
  | _ :: _ :: _ => Except.ok (ParsedPatch.ping none none none none none none none)
  | [l] => do
    let seg ← pyIndex (pySplit (pyReplace l " ms" "") "=") 1
    let rtt_data := pyStrip seg
    match pySplit rtt_data "/" with
    | [mn, av, mx, sd] => do
      let loss_lines := (pySplit raw "\n").filter fun line => pyIn "packet loss" line
      match loss_lines with
      | [] =>
        Except.ok (ParsedPatch.ping (some mn) (some av) (some mx) (some sd) none none none)
      | loss_line :: _ => do
        let split_line := pySplit loss_line ", "
        let s0 ← pyIndex split_line 0
        let s1 ← pyIndex split_line 1
        let packets_txd ← pyToInt ((pySplit s0 " ").headD "")
        let packets_rxd ← pyToInt ((pySplit s1 " ").headD "")
        if packets_txd = 0 then Except.error PyErr.zeroDivisionError
        else
          Except.ok (ParsedPatch.ping (some mn) (some av) (some mx) (some sd)
            (some packets_txd) (some packets_rxd)
            (some (pyRound4 ((((packets_txd : ℚ) - (packets_rxd : ℚ)) / (packets_txd : ℚ)) * 100))))
    | _ => Except.error (PyErr.valueError "unpack")

/-- `parse_iperf_results` (lines 377-433). -/
def parse_iperf_results (t : Test) (raw : String) : Py ParsedPatch := do
  let _id ← pyKey t.id_number "id_number"
  let t_type ← pyKey t.test_type "test_type"
  let _src ← pyKey t.source "source"
  let _dst ← pyKey t.destination "destination"
  let command_result ← json_loads raw
  let hasErr ← jsonHasErrorKey command_result
  if hasErr then do
    let e ← jsonGetPy command_result "error"
    Except.ok (ParsedPatch.iperfError e)
  else if t_type == "throughput" then do
    let endv ← jsonGetPy command_result "end"
    let sum_sent ← jsonGetPy endv "sum_sent"
    let seconds ← jsonGetPy sum_sent "seconds"
    let bytes ← jsonGetPy sum_sent "bytes"
    let bits_per_second ← jsonGetPy sum_sent "bits_per_second"
    Except.ok (ParsedPatch.throughput seconds bytes bits_per_second)
  else if t_type == "jitter" then do
    let endv ← jsonGetPy command_result "end"
    let sum ← jsonGetPy endv "sum"
    let jitter_ms ← jsonGetPy sum "jitter_ms"
    let packets ← jsonGetPy sum "packets"
    let lost_packets ← jsonGetPy sum "lost_packets"
    Except.ok (ParsedPatch.jitter jitter_ms packets lost_packets)
  else Except.error (PyErr.valueError "invalid test type")

/-- `parse_results` (lines 436-447).  For a test type it does not know the
Python function falls through and returns `None`, and the caller's
`p_results.get` at line 527 then raises `AttributeError`; that crash is
attributed here. -/
def parse_results (t : Test) (raw : String) : Py ParsedPatch := do
  let t_type ← pyKey t.test_type "test_type"
  if t_type == "latency" then parse_ping_results t raw
  else if t_type == "throughput" || t_type == "jitter" then parse_iperf_results t raw
  else Except.error PyErr.attributeError

/-- The locality test of `run_test` (line 490): exact membership of `source`
in the five local identifiers.  `source` is compared as written in the CSV;
`my_hostname` and `my_fqdn` were lowercased at lines 592-593. -/
def is_local (env : Env) (source : String) : Bool :=
  [env.my_hostname, env.my_fqdn, env.my_ip_addr, "localhost", "127.0.0.1"].contains source

/-- The per-type probe command templates of `run_test` (lines 467-485).
Python renders the integer defaults 10 and 56 into the f-string exactly as
their decimal strings, so the defaults are modelled as `"10"` and `"56"`. -/
def probe_command (env : Env) (t : Test) (destination : String) : Py String := do
  let t_type ← pyKey t.test_type "test_type"
  if t_type == "latency" then
    let size := t.size.getD "56"
    let count := t.count.getD "10"
    Except.ok ("ping -c " ++ count ++ " -i " ++ env.ping_interval ++ " -s " ++ size
      ++ " " ++ destination)
  else if t_type == "throughput" then
    match t.size with
    | none => Except.error (PyErr.valueError "Size parameter missing")
    | some size => Except.ok ("iperf3 -c " ++ destination ++ " -n " ++ size ++ " -4 --json")
  else if t_type == "jitter" then
    Except.ok ("iperf3 -c " ++ destination ++ " -u -4 --json")
  else Except.error (PyErr.valueError "Unknown test type")

/-- Lines 462-496 of `run_test`: field extraction, the registry username
lookup, probe-command construction and the remote-shell wrap.  Returns
`(id_number, source, destination, test_command)`. -/
def test_setup (env : Env) (t : Test) : Py (String × String × String × String) := do
  let id_num ← pyKey t.id_number "id_number"
  let source := t.source.getD "localhost"
  let destination ← pyKey t.destination "destination"
  let username ← cfgGet env.host_config source "username"
  let cmd0 ← probe_command env t destination
  let cmd :=
    if is_local env source then cmd0
    else "ssh -n -o ConnectTimeout=2 " ++ username ++ "@" ++ source ++ " '" ++ cmd0 ++ "'"
  Except.ok (id_num, source, destination, cmd)

/-- The results dict built by `run_test` (lines 503-536).  Every field is
optional: `none` stands for an absent key or a key holding Python `None`,
both of which mean "not populated". -/
structure ResultsDict where
  id_number : Option String := none
  timestamp : Option String := none
  status : Option String := none
  source : Option String := none
  destination : Option String := none
  test_command : Option String := none
  min_rtt : Option String := none
  avg_rtt : Option String := none
  max_rtt : Option String := none
  stddev_rtt : Option String := none
  packets_txd : Option Int := none
  packets_rxd : Option Int := none
  packet_loss_percent : Option ℚ := none
  seconds : Option Json := none
  bytes : Option Json := none
  bits_per_second : Option Json := none
  jitter_ms : Option Json := none
  packets : Option Json := none
  lost_packets : Option Json := none
  error : Option Json := none

/-- `results_dict.update(p_results)` (line 533): merge the mapper's keys into
the record. -/
def apply_patch (r : ResultsDict) : ParsedPatch → ResultsDict
  | ParsedPatch.ping mn av mx sd txd rxd loss =>
    { r with min_rtt := mn, avg_rtt := av, max_rtt := mx, stddev_rtt := sd,
             packets_txd := txd, packets_rxd := rxd, packet_loss_percent := loss }
  | ParsedPatch.iperfError e => { r with error := pyJsonOpt e }
  | ParsedPatch.throughput s b bps =>
    { r with seconds := pyJsonOpt s, bytes := pyJsonOpt b, bits_per_second := pyJsonOpt bps }
  | ParsedPatch.jitter j p l =>
    { r with jitter_ms := pyJsonOpt j, packets := pyJsonOpt p, lost_packets := pyJsonOpt l }

/-- `p_results.get("error", None) is not None` (line 527): only the iperf
error patch can carry an error value, and a JSON `null` value is Python
`None` there. -/
def patch_has_error : ParsedPatch → Bool
  | ParsedPatch.iperfError e => (pyJsonOpt e).isSome
  | _ => false

/-- `run_test` (lines 450-536). -/
def run_test (env : Env) (t : Test) : Py ResultsDict := do
  let setup ← test_setup env t
  let base : ResultsDict :=
    { id_number := some setup.1, timestamp := some env.now, status := none,
      source := some setup.2.1, destination := some setup.2.2.1,
      test_command := some setup.2.2.2 }
  match env.exec setup.2.2.2 with
  | ExecOutcome.err _ => Except.ok { base with status := some "Failure" }
  | ExecOutcome.ok raw => do
    let p ← parse_results t raw
    let st := if patch_has_error p then "Failure" else "Success"
    Except.ok (apply_patch { base with status := some st } p)

/-- The aggregation dict initialised at lines 617-621. -/
structure AllResults where
  latency_tests : List ResultsDict := []
  throughput_tests : List ResultsDict := []
  jitter_tests : List ResultsDict := []

/-- `all_results[test_type + "_tests"].append(test_results)` (lines 632-633):
`KeyError` for a test type outside the three initialised keys. -/
def append_result (acc : AllResults) (t_type : String) (r : ResultsDict) : Py AllResults :=
  if t_type == "latency" then
    Except.ok { acc with latency_tests := acc.latency_tests ++ [r] }
  else if t_type == "throughput" then
    Except.ok { acc with throughput_tests := acc.throughput_tests ++ [r] }
  else if t_type == "jitter" then
    Except.ok { acc with jitter_tests := acc.jitter_tests ++ [r] }
  else Except.error (PyErr.keyError (t_type ++ "_tests"))

/-- The main test loop (lines 624-633), run strictly in input order; any
uncaught exception aborts the remainder of the loop. -/
def run_loop (env : Env) : List Test → AllResults → Py AllResults
  | [], acc => Except.ok acc
  | t :: ts, acc => do
    let _ ← pyKey t.id_number "id_number"
    let t_type ← pyKey t.test_type "test_type"
    let r ← run_test env t
    let acc' ← append_result acc t_type r
    run_loop env ts acc'

/-- The observable endings of the main body (lines 600-638). -/
inductive MainOutcome where
  | haltedValidation
  | haltedHostConfig
  | crashed (e : PyErr)
  | finished (results : AllResults)

/-- The main body gates and loop (lines 600-638): CSV validation halts the
run with exit code 1 before any test, then registry validation halts the run,
then the loop executes every test in order; an uncaught Python exception
anywhere in the loop crashes the run.  The results document is written
(line 638) only in the `finished` case. -/
def main_run (env : Env) (tests : List Test) : MainOutcome :=
  if !(test_data_validated_ok tests).fst then MainOutcome.haltedValidation
  else
    match host_config_validated_ok tests env.host_config with
    | Except.error e => MainOutcome.crashed e
    | Except.ok false => MainOutcome.haltedHostConfig
    | Except.ok true =>
      match run_loop env tests ({} : AllResults) with
      | Except.error e => MainOutcome.crashed e
      | Except.ok res => MainOutcome.finished res

/-- Modelled from the spec (section 4.2), for comparison with the code's
`is_local`: true if `source` case-insensitively equals the short hostname,
the fully-qualified name, the resolved IP, "localhost" or "127.0.0.1". -/
def is_local_spec (env : Env) (source : String) : Bool :=
  [env.my_hostname, env.my_fqdn, env.my_ip_addr, "localhost", "127.0.0.1"].any
    fun x => pyLower source == pyLower x

/-! ### Shared helper lemmas -/

theorem py_bind_ok {α β : Type} (a : α) (f : α → Py β) :
    (Except.ok a : Py α) >>= f = f a := rfl

theorem py_bind_err {α β : Type} (e : PyErr) (f : α → Py β) :
    (Except.error e : Py α) >>= f = Except.error e := rfl

theorem apply_patch_base (r : ResultsDict) (p : ParsedPatch) :
    (apply_patch r p).id_number = r.id_number ∧
    (apply_patch r p).timestamp = r.timestamp ∧
    (apply_patch r p).status = r.status ∧
    (apply_patch r p).source = r.source ∧
    (apply_patch r p).destination = r.destination ∧
    (apply_patch r p).test_command = r.test_command := by
  cases p <;> exact ⟨rfl, rfl, rfl, rfl, rfl, rfl⟩

/-! ### C1 -/

def c1Raw : String :=
  "round-trip min/avg/max/stddev = 1/2/3/4 ms\nround-trip min/avg/max/stddev = 1/2/3/4 ms"

def c1Env : Env :=
  { host_config := [("localhost", [("hostname", "localhost"), ("username", "u")])], ping_interval := "0.2",
    my_hostname := "myhost", my_fqdn := "myhost.example.com", my_ip_addr := "10.0.0.5",
    now := "T", exec := fun _ => ExecOutcome.ok c1Raw }

def c1Test : Test :=
  { csv_line_num := some 2, id_number := some "1", test_type := some "latency",
    source := some "localhost", destination := some "10.0.0.9" }

/-- C1 counterexample: a latency test whose raw ping output contains two
lines with the marker `min/avg/max` (the spec's own end-to-end example)
produces a result whose RTT and packet-counter fields are all null as the
claim says, but whose status is `"Success"`, not `"Failure"`: the ping parse
anomaly is only logged, it never reaches the status logic of `run_test`. -/
theorem C1_counterexample :
    (((pySplit c1Raw "\n").filter fun l => pyIn "min/avg/max" l).length = 2) ∧
    run_test c1Env c1Test =
      Except.ok { id_number := some "1", timestamp := some "T", status := some "Success",
                  source := some "localhost", destination := some "10.0.0.9",
                  test_command := some "ping -c 10 -i 0.2 -s 56 10.0.0.9" } :=
  ⟨rfl, rfl⟩

/-! ### C2 -/

def c2Raw : String := "iperf3: error - unable to connect to server"

def c2Env : Env :=
  { host_config := [("localhost", [("hostname", "localhost"), ("username", "u")])], ping_interval := "0.2",
    my_hostname := "myhost", my_fqdn := "myhost.example.com", my_ip_addr := "10.0.0.5",
    now := "T", exec := fun _ => ExecOutcome.ok c2Raw }

def c2T1 : Test :=
  { csv_line_num := some 2, id_number := some "1", test_type := some "throughput",
    source := some "localhost", destination := some "10.0.0.9", size := some "100M" }

def c2T2 : Test :=
  { csv_line_num := some 3, id_number := some "2", test_type := some "latency",
    source := some "localhost", destination := some "10.0.0.9" }

/-- C2 counterexample: a throughput test whose subprocess exits zero with
output that is not well-formed JSON does not get a Failure record; the
`json.loads` decode error is uncaught, the whole batch crashes before the
second test runs, and no output document is produced. -/
theorem C2_counterexample :
    json_loads c2Raw = Except.error PyErr.jsonDecodeError ∧
    main_run c2Env [c2T1, c2T2] = MainOutcome.crashed PyErr.jsonDecodeError :=
  ⟨rfl, rfl⟩

/-! ### C3 -/

def c3Cfg : HostConfig := [("s1", [("hostname", "hostb"), ("username", "u")])]

def c3Test : Test :=
  { csv_line_num := some 2, id_number := some "1", test_type := some "latency",
    source := some "hostb", destination := some "10.0.0.9" }

def c3Env : Env :=
  { host_config := c3Cfg, ping_interval := "0.2",
    my_hostname := "myhost", my_fqdn := "myhost.example.com", my_ip_addr := "10.0.0.5",
    now := "T", exec := fun _ => ExecOutcome.ok "" }

/-- C3: the pre-flight registry validation matches sources against the
`hostname` option values of the registry sections, but the per-test lookup
`host_config.get(source, 'username')` requires a section *named* `source`.
A registry whose section name differs from its `hostname` value passes the
pre-flight check and then raises `NoSectionError` mid-batch, contradicting
the claimed guarantee. -/
theorem C3_theorem :
    host_config_validated_ok [c3Test] c3Cfg = Except.ok true ∧
    run_test c3Env c3Test = Except.error (PyErr.noSectionError "hostb") ∧
    main_run c3Env [c3Test] = MainOutcome.crashed (PyErr.noSectionError "hostb") :=
  ⟨rfl, rfl, rfl⟩

/-! ### C4 -/

def c4Env : Env :=
  { host_config := [("MYHOST", [("hostname", "MYHOST"), ("username", "u")])], ping_interval := "0.2",
    my_hostname := "myhost", my_fqdn := "myhost.example.com", my_ip_addr := "10.0.0.5",
    now := "T", exec := fun _ => ExecOutcome.err "" }

def c4Test : Test :=
  { csv_line_num := some 2, id_number := some "1", test_type := some "latency",
    source := some "MYHOST", destination := some "d1" }

/-- C4 counterexample: with the local short hostname `myhost` (stored
lowercased), the upper-case source spelling `MYHOST` satisfies the spec's
case-insensitive `is_local` but fails the code's case-sensitive membership
test, and the built command *is* wrapped in the remote-shell invocation. -/
theorem C4_counterexample :
    is_local_spec c4Env "MYHOST" = true ∧
    is_local c4Env "MYHOST" = false ∧
    test_setup c4Env c4Test =
      Except.ok ("1", "MYHOST", "d1",
        "ssh -n -o ConnectTimeout=2 u@MYHOST 'ping -c 10 -i 0.2 -s 56 d1'") :=
  ⟨rfl, rfl, rfl⟩

/-! ### C5 -/

def c5T1 : Test :=
  { csv_line_num := some 2, id_number := some "1", test_type := some "latency",
    source := some "a" }

def c5T2 : Test :=
  { csv_line_num := some 3, id_number := some "2", test_type := some "latency",
    source := some "a" }

/-- C5 counterexample: a batch with two rows that each miss a mandatory field
(`destination`) fails validation, but only the first violation is reported:
the row loop of `test_data_validated_ok` returns `False` at the first failing
row. -/
theorem C5_counterexample :
    (check_item c5T1).isSome = true ∧
    (check_item c5T2).isSome = true ∧
    test_data_validated_ok [c5T1, c5T2] = (false, [ValErr.missingMandatory (some 2)]) :=
  ⟨rfl, rfl, rfl⟩

/-! ### C6 -/

def c6Env : Env :=
  { host_config := [("localhost", [("hostname", "localhost"), ("username", "u")])], ping_interval := "0.2",
    my_hostname := "myhost", my_fqdn := "myhost.example.com", my_ip_addr := "10.0.0.5",
    now := "T", exec := fun _ => ExecOutcome.err "ping: unknown host" }

def c6Test : Test :=
  { csv_line_num := some 2, id_number := some "1", test_type := some "latency",
    source := some "localhost", destination := some "d6" }

def c6Rec : ResultsDict :=
  { id_number := some "1", timestamp := some "T", status := some "Failure",
    source := some "localhost", destination := some "d6",
    test_command := some "ping -c 10 -i 0.2 -s 56 d6" }

/-- C6 counterexample: a subprocess exiting non-zero yields a result with
status `"Failure"` whose type-specific fields are all null, but which carries
*no* error string: the `CalledProcessError` branch of `run_test` only logs
the output, it adds no `error` key to the record. -/
theorem C6_counterexample :
    run_test c6Env c6Test = Except.ok c6Rec ∧
    c6Rec.status = some "Failure" ∧
    c6Rec.error = none :=
  ⟨rfl, rfl, rfl⟩

/-! ### C7 -/

def c7Raw : String := "\x7b\"error\": null\x7d"

def c7Env : Env :=
  { host_config := [("localhost", [("hostname", "localhost"), ("username", "u")])], ping_interval := "0.2",
    my_hostname := "myhost", my_fqdn := "myhost.example.com", my_ip_addr := "10.0.0.5",
    now := "T", exec := fun _ => ExecOutcome.ok c7Raw }

def c7Test : Test :=
  { csv_line_num := some 2, id_number := some "1", test_type := some "jitter",
    source := some "localhost", destination := some "d7" }

/-- C7 counterexample: a jitter test whose decoded JSON output carries a
top-level `error` key whose value is JSON `null` is recorded as `"Success"`,
not `"Failure"`: `json.loads` turns the value into Python `None`, and
`p_results.get("error", None) is not None` is then false. -/
theorem C7_counterexample :
    json_loads c7Raw = Except.ok (Json.obj [("error", Json.null)]) ∧
    run_test c7Env c7Test =
      Except.ok { id_number := some "1", timestamp := some "T", status := some "Success",
                  source := some "localhost", destination := some "d7",
                  test_command := some "iperf3 -c d7 -u -4 --json" } :=
  ⟨rfl, rfl⟩

/-! ### C8 -/

/-- C8: for every spec whose source is not local, the executed command is the
per-type probe command wrapped as `ssh -n -o ConnectTimeout=2
username@source '<probe command>'`, with the username taken from the
registry entry (section) for that source and the inner command quoted. -/
theorem C8_theorem (env : Env) (t : Test) (idn src dst u c : String)
    (hid : t.id_number = some idn) (hsrc : t.source = some src)
    (hdst : t.destination = some dst)
    (hlocal : is_local env src = false)
    (huser : cfgGet env.host_config src "username" = Except.ok u)
    (hcmd : probe_command env t dst = Except.ok c) :
    test_setup env t =
      Except.ok (idn, src, dst,
        "ssh -n -o ConnectTimeout=2 " ++ u ++ "@" ++ src ++ " '" ++ c ++ "'") := by
  simp only [test_setup, pyKey, hid, hsrc, hdst, Option.getD_some, huser, hcmd, hlocal,
    py_bind_ok, Bool.false_eq_true, if_false]

def c8Env : Env :=
  { host_config := [("hostA", [("hostname", "hostA"), ("username", "ops")])],
    ping_interval := "0.2", my_hostname := "myhost", my_fqdn := "myhost.example.com",
    my_ip_addr := "10.0.0.5", now := "T", exec := fun _ => ExecOutcome.err "" }

def c8Test : Test :=
  { csv_line_num := some 2, id_number := some "7", test_type := some "jitter",
    source := some "hostA", destination := some "10.1.1.1" }

/-- C8 witness: a jitter spec with the non-local source `hostA` registered
with username `ops` yields the ssh-wrapped quoted command. -/
theorem C8_witness :
    test_setup c8Env c8Test =
      Except.ok ("7", "hostA", "10.1.1.1",
        "ssh -n -o ConnectTimeout=2 " ++ "ops" ++ "@" ++ "hostA" ++ " '" ++
          "iperf3 -c 10.1.1.1 -u -4 --json" ++ "'") :=
  C8_theorem c8Env c8Test "7" "hostA" "10.1.1.1" "ops" "iperf3 -c 10.1.1.1 -u -4 --json"
    rfl rfl rfl rfl rfl rfl

/-! ### C10 -/

/-- C10: every result record actually returned by `run_test` — Success or
Failure — carries `id_number`, `timestamp`, `source`, `destination` and
`test_command`, and its status is exactly `"Success"` or `"Failure"`, never
unset. -/
theorem C10_theorem (env : Env) (t : Test) (r : ResultsDict)
    (h : run_test env t = Except.ok r) :
    r.id_number.isSome = true ∧ r.timestamp = some env.now ∧ r.source.isSome = true ∧
    r.destination.isSome = true ∧ r.test_command.isSome = true ∧
    (r.status = some "Success" ∨ r.status = some "Failure") := by
  simp only [run_test] at h
  cases hs : test_setup env t with
  | error e => rw [hs, py_bind_err] at h; cases h
  | ok setup =>
    rw [hs, py_bind_ok] at h
    cases he : env.exec setup.2.2.2 with
    | err out =>
      rw [he] at h
      rw [Except.ok.injEq] at h
      subst h
      simp
    | ok raw =>
      rw [he] at h
      simp only [] at h
      cases hp : parse_results t raw with
      | error e => rw [hp, py_bind_err] at h; cases h
      | ok p =>
        rw [hp, py_bind_ok] at h
        rw [Except.ok.injEq] at h
        subst h
        obtain ⟨h1, h2, h3, h4, h5, h6⟩ := apply_patch_base
          { id_number := some setup.1, timestamp := some env.now, status :=
              some (if patch_has_error p then "Failure" else "Success"),
            source := some setup.2.1, destination := some setup.2.2.1,
            test_command := some setup.2.2.2 } p
        refine ⟨?_, ?_, ?_, ?_, ?_, ?_⟩
        · rw [h1]; rfl
        · rw [h2]
        · rw [h4]; rfl
        · rw [h5]; rfl
        · rw [h6]; rfl
        · rw [h3]
          cases patch_has_error p
          · exact Or.inl rfl
          · exact Or.inr rfl

def c10Env : Env :=
  { host_config := [("localhost", [("hostname", "localhost"), ("username", "u")])],
    ping_interval := "0.2", my_hostname := "myhost", my_fqdn := "myhost.example.com",
    my_ip_addr := "10.0.0.5", now := "T", exec := fun _ => ExecOutcome.err "boom" }

def c10Test : Test :=
  { csv_line_num := some 2, id_number := some "3", test_type := some "latency",
    source := some "localhost", destination := some "d10" }

def c10Rec : ResultsDict :=
  { id_number := some "3", timestamp := some "T", status := some "Failure",
    source := some "localhost", destination := some "d10",
    test_command := some "ping -c 10 -i 0.2 -s 56 d10" }

/-- C10 witness: a concrete failing run still returns a record with all the
base fields populated and a definite status. -/
theorem C10_witness :
    c10Rec.id_number.isSome = true ∧ c10Rec.timestamp = some c10Env.now ∧
    c10Rec.source.isSome = true ∧ c10Rec.destination.isSome = true ∧
    c10Rec.test_command.isSome = true ∧
    (c10Rec.status = some "Success" ∨ c10Rec.status = some "Failure") :=
  C10_theorem c10Env c10Test c10Rec rfl

/-! ### C6 (amended theorem) -/

/-- C6 as amended: every result whose status is `"Failure"` has all thirteen
type-specific fields null; the error string claimed to accompany every
Failure is in fact absent for subprocess failures (see the counterexample),
so only the null-fields half survives. -/
theorem C6_theorem (env : Env) (t : Test) (r : ResultsDict)
    (h : run_test env t = Except.ok r) (hfail : r.status = some "Failure") :
    r.min_rtt = none ∧ r.avg_rtt = none ∧ r.max_rtt = none ∧ r.stddev_rtt = none ∧
    r.packets_txd = none ∧ r.packets_rxd = none ∧ r.packet_loss_percent = none ∧
    r.seconds = none ∧ r.bytes = none ∧ r.bits_per_second = none ∧
    r.jitter_ms = none ∧ r.packets = none ∧ r.lost_packets = none := by
  simp only [run_test] at h
  cases hs : test_setup env t with
  | error e => rw [hs, py_bind_err] at h; cases h
  | ok setup =>
    rw [hs, py_bind_ok] at h
    cases he : env.exec setup.2.2.2 with
    | err out =>
      rw [he] at h
      rw [Except.ok.injEq] at h
      subst h
      simp
    | ok raw =>
      rw [he] at h
      simp only [] at h
      cases hp : parse_results t raw with
      | error e => rw [hp, py_bind_err] at h; cases h
      | ok p =>
        rw [hp, py_bind_ok] at h
        rw [Except.ok.injEq] at h
        subst h
        cases hpe : patch_has_error p with
        | false =>
          exfalso
          obtain ⟨_, _, h3, _, _, _⟩ := apply_patch_base
            { id_number := some setup.1, timestamp := some env.now, status :=
                some (if patch_has_error p then "Failure" else "Success"),
              source := some setup.2.1, destination := some setup.2.2.1,
              test_command := some setup.2.2.2 } p
          rw [h3, hpe] at hfail
          simp at hfail
        | true =>
          cases p with
          | ping mn av mx sd txd rxd loss => simp [patch_has_error] at hpe
          | throughput s b bps => simp [patch_has_error] at hpe
          | jitter j pk l => simp [patch_has_error] at hpe
          | iperfError e => simp [apply_patch]

/-- C6 witness for the amended theorem: the concrete subprocess-failure
result from the counterexample has every type-specific field null. -/
theorem C6_witness :
    c6Rec.min_rtt = none ∧ c6Rec.avg_rtt = none ∧ c6Rec.max_rtt = none ∧
    c6Rec.stddev_rtt = none ∧ c6Rec.packets_txd = none ∧ c6Rec.packets_rxd = none ∧
    c6Rec.packet_loss_percent = none ∧ c6Rec.seconds = none ∧ c6Rec.bytes = none ∧
    c6Rec.bits_per_second = none ∧ c6Rec.jitter_ms = none ∧ c6Rec.packets = none ∧
    c6Rec.lost_packets = none :=
  C6_theorem c6Env c6Test c6Rec rfl rfl

/-! ### C1 (amended theorem) -/

/-- C1 as amended: when the raw ping output of a latency test contains zero
lines, or more than one line, with the marker `min/avg/max`, the produced
result has all four RTT fields and all three packet-counter fields null —
but its status is `"Success"`, not the claimed `"Failure"`: the parse
anomaly is only logged and never reaches the status logic. -/
theorem C1_theorem (env : Env) (t : Test) (idn src dst cmd raw : String)
    (htype : t.test_type = some "latency")
    (hid : t.id_number = some idn) (hsrc : t.source = some src)
    (hdst : t.destination = some dst)
    (hsetup : test_setup env t = Except.ok (idn, src, dst, cmd))
    (hexec : env.exec cmd = ExecOutcome.ok raw)
    (hlines : (((pySplit raw "\n").filter fun line => pyIn "min/avg/max" line).length ≠ 1)) :
    run_test env t = Except.ok
      { id_number := some idn, timestamp := some env.now, status := some "Success",
        source := some src, destination := some dst, test_command := some cmd } := by
  rcases hl : (pySplit raw "\n").filter (fun line => pyIn "min/avg/max" line)
    with _ | ⟨a, _ | ⟨b, tl⟩⟩
  · simp only [run_test, hsetup, py_bind_ok, hexec]
    simp only [parse_results, parse_ping_results, htype, hid, hsrc, hdst, pyKey, py_bind_ok,
      show (("latency" : String) == "latency") = true from rfl, if_true, hl]
    simp [patch_has_error, apply_patch]
  · exact absurd (by rw [hl]; rfl) hlines
  · simp only [run_test, hsetup, py_bind_ok, hexec]
    simp only [parse_results, parse_ping_results, htype, hid, hsrc, hdst, pyKey, py_bind_ok,
      show (("latency" : String) == "latency") = true from rfl, if_true, hl]
    simp [patch_has_error, apply_patch]

def c1wEnv : Env :=
  { host_config := [("localhost", [("hostname", "localhost"), ("username", "u")])],
    ping_interval := "0.2", my_hostname := "myhost", my_fqdn := "myhost.example.com",
    my_ip_addr := "10.0.0.5", now := "T",
    exec := fun _ => ExecOutcome.ok "ping: cannot resolve host" }

def c1wTest : Test :=
  { csv_line_num := some 2, id_number := some "1", test_type := some "latency",
    source := some "localhost", destination := some "d1w" }

/-- C1 witness for the amended theorem: ping output with no `min/avg/max`
line gives a result with all RTT and packet fields null and status
`"Success"`. -/
theorem C1_witness :
    run_test c1wEnv c1wTest = Except.ok
      { id_number := some "1", timestamp := some "T", status := some "Success",
        source := some "localhost", destination := some "d1w",
        test_command := some "ping -c 10 -i 0.2 -s 56 d1w" } :=
  C1_theorem c1wEnv c1wTest "1" "localhost" "d1w" "ping -c 10 -i 0.2 -s 56 d1w"
    "ping: cannot resolve host" rfl rfl rfl rfl rfl rfl (by decide)

/-! ### C2 (amended theorem) -/

/-- C2 as amended: when a throughput or jitter subprocess exits zero but its
output is not well-formed JSON, the `json.loads` decode error is raised out
of `run_test` uncaught — no Failure record for the test is produced (and, as
the counterexample shows end to end, the batch aborts and no output document
is written). -/
theorem C2_theorem (env : Env) (t : Test) (idn src dst cmd raw tt : String)
    (htype : t.test_type = some tt) (htt : tt = "throughput" ∨ tt = "jitter")
    (hid : t.id_number = some idn) (hsrc : t.source = some src)
    (hdst : t.destination = some dst)
    (hsetup : test_setup env t = Except.ok (idn, src, dst, cmd))
    (hexec : env.exec cmd = ExecOutcome.ok raw)
    (hjson : json_loads raw = Except.error PyErr.jsonDecodeError) :
    run_test env t = Except.error PyErr.jsonDecodeError := by
  rcases htt with h | h <;> subst h <;>
  · simp only [run_test, hsetup, py_bind_ok, hexec]
    simp only [parse_results, parse_iperf_results, htype, hid, hsrc, hdst, pyKey, py_bind_ok,
      show (("throughput" : String) == "latency") = false from rfl,
      show (("jitter" : String) == "latency") = false from rfl,
      show (("throughput" : String) == "throughput") = true from rfl,
      show (("jitter" : String) == "jitter") = true from rfl,
      show (("jitter" : String) == "throughput") = false from rfl,
      Bool.true_or, Bool.or_true, Bool.false_or, if_true, if_false, hjson, py_bind_err]
    simp [py_bind_err]

/-- C2 witness for the amended theorem: the concrete malformed-output
throughput test raises the decode error out of `run_test`. -/
theorem C2_witness : run_test c2Env c2T1 = Except.error PyErr.jsonDecodeError :=
  C2_theorem c2Env c2T1 "1" "localhost" "10.0.0.9" "iperf3 -c 10.0.0.9 -n 100M -4 --json"
    c2Raw "throughput" rfl (Or.inl rfl) rfl rfl rfl rfl rfl rfl

/-! ### C7 (amended theorem) -/

theorem pyJsonOpt_of_ne_null (e : Json) (h : e ≠ Json.null) : pyJsonOpt e = some e := by
  cases e
  · exact absurd rfl h
  · rfl
  · rfl
  · rfl
  · rfl
  · rfl

/-- C7 as amended: a throughput or jitter test whose decoded JSON output
carries a top-level `error` key with a non-null value is recorded as a
Failure carrying that value verbatim, with no type-specific numeric field
populated; a null-valued `error` key, however, is treated as Success (see
the counterexample), because `json.loads` renders it as Python `None`. -/
theorem C7_theorem (env : Env) (t : Test) (idn src dst cmd raw tt : String)
    (kvs : List (String × Json)) (e : Json)
    (htype : t.test_type = some tt) (htt : tt = "throughput" ∨ tt = "jitter")
    (hid : t.id_number = some idn) (hsrc : t.source = some src)
    (hdst : t.destination = some dst)
    (hsetup : test_setup env t = Except.ok (idn, src, dst, cmd))
    (hexec : env.exec cmd = ExecOutcome.ok raw)
    (hjson : json_loads raw = Except.ok (Json.obj kvs))
    (hkey : jLookup kvs "error" = some e) (hnn : e ≠ Json.null) :
    run_test env t = Except.ok
      { id_number := some idn, timestamp := some env.now, status := some "Failure",
        source := some src, destination := some dst, test_command := some cmd,
        error := some e } := by
  have hpj : pyJsonOpt e = some e := pyJsonOpt_of_ne_null e hnn
  rcases htt with h | h <;> subst h <;>
  · simp only [run_test, hsetup, py_bind_ok, hexec]
    simp only [parse_results, parse_iperf_results, htype, hid, hsrc, hdst, pyKey, py_bind_ok,
      show (("throughput" : String) == "latency") = false from rfl,
      show (("jitter" : String) == "latency") = false from rfl,
      Bool.true_or, Bool.or_true, Bool.false_or, if_true, if_false, hjson]
    simp only [jsonHasErrorKey, hkey, Option.isSome_some, py_bind_ok, if_true]
    simp only [jsonGetPy, hkey, py_bind_ok]
    simp [py_bind_ok, patch_has_error, hpj, apply_patch]

def c7wRaw : String := "\x7b\"error\": \"unable to connect to server\"\x7d"

def c7wEnv : Env :=
  { host_config := [("localhost", [("hostname", "localhost"), ("username", "u")])],
    ping_interval := "0.2", my_hostname := "myhost", my_fqdn := "myhost.example.com",
    my_ip_addr := "10.0.0.5", now := "T", exec := fun _ => ExecOutcome.ok c7wRaw }

def c7wTest : Test :=
  { csv_line_num := some 2, id_number := some "9", test_type := some "jitter",
    source := some "localhost", destination := some "d7w" }

/-- C7 witness for the amended theorem: a jitter test whose output decodes to
an object with a string-valued `error` key is a Failure carrying that string,
with no numeric fields populated. -/
theorem C7_witness :
    run_test c7wEnv c7wTest = Except.ok
      { id_number := some "9", timestamp := some "T", status := some "Failure",
        source := some "localhost", destination := some "d7w",
        test_command := some "iperf3 -c d7w -u -4 --json",
        error := some (Json.str "unable to connect to server") } :=
  C7_theorem c7wEnv c7wTest "9" "localhost" "d7w" "iperf3 -c d7w -u -4 --json" c7wRaw
    "jitter" [("error", Json.str "unable to connect to server")]
    (Json.str "unable to connect to server") rfl (Or.inr rfl) rfl rfl rfl rfl rfl rfl rfl
    (fun h => Json.noConfusion h)

/-! ### C4 (amended theorem) -/

/-- C4 as amended: `is_local` is an exact, case-sensitive membership test:
it holds iff `source` equals (as written) the lowercased short hostname, the
lowercased fully-qualified name, the resolved IP, `"localhost"` or
`"127.0.0.1"`; and the built command omits the remote-shell wrapper exactly
when that test holds.  An upper- or mixed-case spelling of the local
hostname therefore gets the wrapper (see the counterexample). -/
theorem C4_theorem (env : Env) (t : Test) (idn src dst u c : String)
    (hid : t.id_number = some idn) (hsrc : t.source = some src)
    (hdst : t.destination = some dst)
    (huser : cfgGet env.host_config src "username" = Except.ok u)
    (hcmd : probe_command env t dst = Except.ok c) :
    (is_local env src = true ↔
      (src = env.my_hostname ∨ src = env.my_fqdn ∨ src = env.my_ip_addr ∨
        src = "localhost" ∨ src = "127.0.0.1")) ∧
    test_setup env t = Except.ok (idn, src, dst,
      if is_local env src then c
      else "ssh -n -o ConnectTimeout=2 " ++ u ++ "@" ++ src ++ " '" ++ c ++ "'") := by
  constructor
  · simp [is_local, List.contains]
  · simp only [test_setup, pyKey, hid, hsrc, hdst, Option.getD_some, huser, hcmd, py_bind_ok]

def c4wEnv : Env :=
  { host_config := [("myhost", [("hostname", "myhost"), ("username", "u")])],
    ping_interval := "0.2", my_hostname := "myhost", my_fqdn := "myhost.example.com",
    my_ip_addr := "10.0.0.5", now := "T", exec := fun _ => ExecOutcome.err "" }

def c4wTest : Test :=
  { csv_line_num := some 2, id_number := some "4", test_type := some "jitter",
    source := some "myhost", destination := some "d4w" }

/-- C4 witness for the amended theorem: the exact lowercase spelling of the
local hostname is local and the command carries no wrapper. -/
theorem C4_witness :
    (is_local c4wEnv "myhost" = true ↔
      ("myhost" = c4wEnv.my_hostname ∨ "myhost" = c4wEnv.my_fqdn ∨
        "myhost" = c4wEnv.my_ip_addr ∨ "myhost" = "localhost" ∨
        "myhost" = "127.0.0.1")) ∧
    test_setup c4wEnv c4wTest = Except.ok ("4", "myhost", "d4w",
      if is_local c4wEnv "myhost" then "iperf3 -c d4w -u -4 --json"
      else "ssh -n -o ConnectTimeout=2 " ++ "u" ++ "@" ++ "myhost" ++ " '" ++
        "iperf3 -c d4w -u -4 --json" ++ "'") :=
  C4_theorem c4wEnv c4wTest "4" "myhost" "d4w" "u" "iperf3 -c d4w -u -4 --json"
    rfl rfl rfl rfl rfl

/-! ### C5 (amended theorem) -/

theorem first_item_err_isSome {tests : List Test} {t : Test} {e : ValErr}
    (hmem : t ∈ tests) (hbad : check_item t = some e) :
    ∃ e2, first_item_err tests = some e2 := by
  induction hmem with
  | head as => exact ⟨e, by simp [first_item_err, hbad]⟩
  | tail b hm ih =>
    obtain ⟨e2, he2⟩ := ih
    cases hca : check_item b with
    | some e3 => exact ⟨e3, by simp [first_item_err, hca]⟩
    | none => exact ⟨e2, by simp [first_item_err, hca, he2]⟩

theorem mem_dedupAux (x : String) :
    ∀ (xs seen : List String), x ∈ xs → x ∈ dedupAux xs seen ∨ x ∈ seen := by
  intro xs
  induction xs with
  | nil => intro seen h; exact absurd h (List.not_mem_nil x)
  | cons a as ih =>
    intro seen hx
    by_cases hc : a ∈ seen
    · rcases List.mem_cons.mp hx with rfl | hx2
      · exact Or.inr hc
      · rcases ih seen hx2 with h | h
        · exact Or.inl (by simp [dedupAux, hc, h])
        · exact Or.inr h
    · rcases List.mem_cons.mp hx with rfl | hx2
      · exact Or.inl (by simp [dedupAux, hc])
      · rcases ih (a :: seen) hx2 with h | h
        · exact Or.inl (by simp [dedupAux, hc, h])
        · rcases List.mem_cons.mp h with rfl | h2
          · exact Or.inl (by simp [dedupAux, hc])
          · exact Or.inr h2

theorem mem_dedupStr {x : String} {xs : List String} (h : x ∈ xs) : x ∈ dedupStr xs := by
  rcases mem_dedupAux x xs [] h with h2 | h2
  · exact h2
  · exact absurd h2 (List.not_mem_nil x)

/-- C5 as amended: any validation violation — a row failing one of the
per-row checks (missing mandatory field, unknown test type, throughput
without size) or a duplicate `id_number` across the batch — makes
`test_data_validated_ok` return `False`, and the main body then halts at the
validation gate with exit code 1 before the test loop can spawn any
subprocess.  Only the first violation found is reported, however, not every
violation (see the counterexample); the duplicate-id scan alone, which runs
only after every row passed, reports all duplicates together. -/
theorem C5_theorem (env : Env) (tests : List Test)
    (hviol :
      (∃ t ∈ tests, (check_item t).isSome = true) ∨
      (∃ i, 1 < (tests.map fun t => t.id_number.getD "").count i)) :
    (test_data_validated_ok tests).fst = false ∧
    main_run env tests = MainOutcome.haltedValidation := by
  have hfst : (test_data_validated_ok tests).fst = false := by
    cases hfe : first_item_err tests with
    | some e => simp [test_data_validated_ok, hfe]
    | none =>
      rcases hviol with ⟨t, hmem, hsome⟩ | ⟨i, hcount⟩
      · obtain ⟨e, he⟩ := Option.isSome_iff_exists.mp hsome
        obtain ⟨e2, he2⟩ := first_item_err_isSome hmem he
        rw [hfe] at he2
        cases he2
      · have hmemi : i ∈ tests.map fun t => t.id_number.getD "" :=
          List.count_pos_iff.mp (Nat.lt_trans Nat.zero_lt_one hcount)
        have hded : i ∈ dedupStr (tests.map fun t => t.id_number.getD "") :=
          mem_dedupStr hmemi
        have hfilt : i ∈ (dedupStr (tests.map fun t => t.id_number.getD "")).filter
            (fun j => 1 < (tests.map fun t => t.id_number.getD "").count j) := by
          simp [List.mem_filter, hded, hcount]
        cases hd : (dedupStr (tests.map fun t => t.id_number.getD "")).filter
            (fun j => 1 < (tests.map fun t => t.id_number.getD "").count j) with
        | nil => rw [hd] at hfilt; exact absurd hfilt (List.not_mem_nil i)
        | cons d ds => simp [test_data_validated_ok, hfe, hd]
  exact ⟨hfst, by simp [main_run, hfst]⟩

def c5wEnv : Env :=
  { host_config := [("a", [("hostname", "a"), ("username", "u")])],
    ping_interval := "0.2", my_hostname := "myhost", my_fqdn := "myhost.example.com",
    my_ip_addr := "10.0.0.5", now := "T", exec := fun _ => ExecOutcome.err "" }

def c5D1 : Test :=
  { csv_line_num := some 2, id_number := some "1", test_type := some "latency",
    source := some "a", destination := some "d" }

def c5D2 : Test :=
  { csv_line_num := some 3, id_number := some "1", test_type := some "latency",
    source := some "a", destination := some "d" }

/-- C5 witness for the amended theorem: a batch whose only violation is a
duplicate `id_number` — both rows individually pass every per-row check —
still fails validation and halts the run at the validation gate before any
subprocess. -/
theorem C5_witness :
    check_item c5D1 = none ∧ check_item c5D2 = none ∧
    ((test_data_validated_ok [c5D1, c5D2]).fst = false ∧
      main_run c5wEnv [c5D1, c5D2] = MainOutcome.haltedValidation) :=
  ⟨rfl, rfl, C5_theorem c5wEnv [c5D1, c5D2] (Or.inr ⟨"1", by decide⟩)⟩

/-! ### C9 -/

/-- C9: when a latency test's output has a well-formed summary line and a
packet-loss line, the transmitted and received counts are the leading
integers of the first two comma-separated segments (any wording whose
segment starts with the number, covering both "N packets transmitted" and
"N transmitted"), and the recorded loss percentage is computed locally as
`round(((tx - rx) / tx) * 100, 4)` from those counts — the percentage text
in the tool's own output plays no role in the result. -/
theorem C9_theorem (env : Env) (t : Test)
    (idn src dst cmd raw L p0 p1 M s0 s1 mn av mx sd : String)
    (ps ls ss : List String) (tx rx : ℤ)
    (htype : t.test_type = some "latency")
    (hid : t.id_number = some idn) (hsrc : t.source = some src)
    (hdst : t.destination = some dst)
    (hsetup : test_setup env t = Except.ok (idn, src, dst, cmd))
    (hexec : env.exec cmd = ExecOutcome.ok raw)
    (hrtt : (pySplit raw "\n").filter (fun line => pyIn "min/avg/max" line) = [L])
    (hseg : pySplit (pyReplace L " ms" "") "=" = p0 :: p1 :: ps)
    (hfour : pySplit (pyStrip p1) "/" = [mn, av, mx, sd])
    (hloss : (pySplit raw "\n").filter (fun line => pyIn "packet loss" line) = M :: ls)
    (hsegs : pySplit M ", " = s0 :: s1 :: ss)
    (htx : pyToInt ((pySplit s0 " ").headD "") = Except.ok tx)
    (hrx : pyToInt ((pySplit s1 " ").headD "") = Except.ok rx)
    (htx0 : ¬ tx = 0) :
    run_test env t = Except.ok
      { id_number := some idn, timestamp := some env.now, status := some "Success",
        source := some src, destination := some dst, test_command := some cmd,
        min_rtt := some mn, avg_rtt := some av, max_rtt := some mx, stddev_rtt := some sd,
        packets_txd := some tx, packets_rxd := some rx,
        packet_loss_percent := some (pyRound4 ((((tx : ℚ) - (rx : ℚ)) / (tx : ℚ)) * 100)) } := by
  simp only [run_test, hsetup, py_bind_ok, hexec]
  simp only [parse_results, parse_ping_results, htype, hid, hsrc, hdst, pyKey, py_bind_ok,
    show (("latency" : String) == "latency") = true from rfl, if_true, hrtt]
  simp only [hseg, pyIndex, List.get?, py_bind_ok]
  simp only [hfour, hloss, hsegs, py_bind_ok]
  simp only [pyIndex, List.get?, py_bind_ok]
  simp only [htx, hrx, py_bind_ok]
  rw [if_neg htx0]
  simp [py_bind_ok, patch_has_error, apply_patch]

def c9Raw : String :=
  "round-trip min/avg/max/stddev = 0.1/0.2/0.3/0.05 ms\n10 packets transmitted, 8 packets received, 80.0% packet loss"

def c9Env : Env :=
  { host_config := [("localhost", [("hostname", "localhost"), ("username", "u")])],
    ping_interval := "0.2", my_hostname := "myhost", my_fqdn := "myhost.example.com",
    my_ip_addr := "10.0.0.5", now := "T", exec := fun _ => ExecOutcome.ok c9Raw }

def c9Test : Test :=
  { csv_line_num := some 2, id_number := some "1", test_type := some "latency",
    source := some "localhost", destination := some "d9" }

/-- C9 witness: for an output reporting tx=10, rx=8 — and a deliberately
wrong percentage text of 80.0% — the recorded loss is the locally computed
`round(((10 - 8) / 10) * 100, 4) = 20.0`, not the tool's text. -/
theorem C9_witness :
    run_test c9Env c9Test = Except.ok
      { id_number := some "1", timestamp := some "T", status := some "Success",
        source := some "localhost", destination := some "d9",
        test_command := some "ping -c 10 -i 0.2 -s 56 d9",
        min_rtt := some "0.1", avg_rtt := some "0.2", max_rtt := some "0.3",
        stddev_rtt := some "0.05", packets_txd := some 10, packets_rxd := some 8,
        packet_loss_percent :=
          some (pyRound4 (((((10 : ℤ) : ℚ) - ((8 : ℤ) : ℚ)) / ((10 : ℤ) : ℚ)) * 100)) } ∧
    pyRound4 (((((10 : ℤ) : ℚ) - ((8 : ℤ) : ℚ)) / ((10 : ℤ) : ℚ)) * 100) = 20 :=
  ⟨C9_theorem c9Env c9Test "1" "localhost" "d9" "ping -c 10 -i 0.2 -s 56 d9" c9Raw
      "round-trip min/avg/max/stddev = 0.1/0.2/0.3/0.05 ms"
      "round-trip min/avg/max/stddev " " 0.1/0.2/0.3/0.05"
      "10 packets transmitted, 8 packets received, 80.0% packet loss"
      "10 packets transmitted" "8 packets received"
      "0.1" "0.2" "0.3" "0.05"
      [] [] ["80.0% packet loss"] 10 8
      rfl rfl rfl rfl rfl rfl rfl rfl rfl rfl rfl rfl rfl (by decide),
    by norm_num [pyRound4, roundHalfEven]⟩
